import Mathlib

/-!
Verification of the SmartAdServer prebid adapter (package `smartadserver`,
plus the `adapter` interface package).

Shallow embedding conventions:

* Go pointer fields that may be nil (`*openrtb2.Site`, `*openrtb2.Banner`)
  become `Option`.
* `MakeRequests` takes a `*openrtb2.BidRequest`.  The statement
  `enrichedRequest := *request` copies the top-level struct only, so
  `enrichedRequest.Site` aliases the same `openrtb2.Site` object as
  `request.Site`; the later assignment `enrichedRequest.Site.Page = ...`
  therefore writes through to the caller.  We model this heap effect by
  returning, next to the ordinary Go return values, the value of the
  caller-visible `*request` after the call.
* The unconditional read `request.Site.Domain` (source line 98) faults with a
  nil-pointer dereference when `request.Site == nil`.  A fault is modelled as
  `Option.none` for the whole call; `some` is a normal Go return.
* `json.Marshal` of the impression extension map (string keys, leaves that
  are Go ints and strings) cannot fail, and `json.Marshal` of the enriched
  request over the fields this adapter populates cannot fail either; both
  marshals are modelled as total.  A wire body is represented by the value it
  decodes to (JSON encoding of the modelled record is deterministic and
  injective), so `HttpRequest.body` holds the enriched `BidRequest` itself.
* An incoming wire-response body is a byte string that either decodes as an
  `openrtb2.BidResponse` or does not; `WireBody` keeps the raw string (used
  in error messages) together with the decode outcome.
* Go `float64` bid floors carry only the constant `0.01` here, with no
  floating-point arithmetic, so they are modelled in `ℚ`.
* Go errors are modelled as the strings built by `fmt.Errorf`.
-/

/-! ## Data model (openrtb2 fragment and the adapter package) -/

/-- openrtb2.Format: one banner size. -/
structure Format where
  w : Int
  h : Int
deriving DecidableEq, Repr

/-- openrtb2.Banner: the format list is the only field this adapter touches. -/
structure Banner where
  format : List Format
deriving DecidableEq, Repr

/-- The innermost object of the impression extension built at source lines
89-101: siteId, networkId, pageId, formatId, target, domain. -/
structure SmartadserverExt where
  siteId : Int
  networkId : Int
  pageId : Int
  formatId : Int
  target : String
  domain : String
deriving DecidableEq, Repr

/-- The `bidder` wrapper object of the impression extension. -/
structure BidderExt where
  smartadserver : SmartadserverExt
deriving DecidableEq, Repr

/-- The `prebid` wrapper object of the impression extension. -/
structure PrebidExt where
  bidder : BidderExt
deriving DecidableEq, Repr

/-- The full impression extension map built at source lines 89-101. -/
structure ImpExt where
  prebid : PrebidExt
deriving DecidableEq, Repr

/-- An impression extension blob (`json.RawMessage` on openrtb2.Imp): either
an opaque caller-supplied blob or the marshalled adapter extension. -/
inductive ExtBlob where
  | raw (s : String)
  | smart (e : ImpExt)
deriving DecidableEq, Repr

/-- openrtb2.Imp, restricted to the fields the adapter reads or writes. -/
structure Imp where
  id : String := ""
  banner : Option Banner := none
  bidFloor : ℚ := 0
  bidFloorCur : String := ""
  ext : Option ExtBlob := none
deriving DecidableEq, Repr

/-- openrtb2.Site, restricted to the fields the adapter reads or writes. -/
structure Site where
  id : String := ""
  domain : String := ""
  page : String := ""
deriving DecidableEq, Repr

/-- openrtb2.BidRequest, restricted to the fields the adapter reads or
writes, plus `id` and `cur` standing for the fields it merely copies. -/
structure BidRequest where
  id : String := ""
  imp : List Imp := []
  site : Option Site := none
  test : Int := 0
  AT : Int := 0
  tmax : Int := 0
  cur : List String := []
deriving DecidableEq, Repr

/-- adapter.HttpRequest.  `body` holds the decoded form of the JSON body (see
the header comment); `headers` models the Go string map as a key-value list. -/
structure HttpRequest where
  method : String
  uri : String
  body : BidRequest
  headers : List (String × String)
deriving DecidableEq, Repr

/-- openrtb2.Bid, restricted to identifying fields. -/
structure Bid where
  id : String := ""
  impid : String := ""
  price : ℚ := 0
deriving DecidableEq, Repr

/-- openrtb2.SeatBid. -/
structure SeatBid where
  bid : List Bid := []
  seat : String := ""
deriving DecidableEq, Repr

/-- openrtb2.BidResponse, restricted to the fields MakeBids reads. -/
structure BidResponse where
  id : String := ""
  seatBid : List SeatBid := []
deriving DecidableEq, Repr

/-- A wire-response body: the raw byte string together with the outcome of
`json.Unmarshal` into `openrtb2.BidResponse`. -/
inductive WireBody where
  | malformed (raw : String)
  | valid (raw : String) (decoded : BidResponse)
deriving DecidableEq, Repr

/-- The raw bytes of a wire body, as interpolated into error messages. -/
def WireBody.raw : WireBody → String
  | .malformed s => s
  | .valid s _ => s

/-- adapter.HttpResponse. -/
structure HttpResponse where
  statusCode : Nat
  body : WireBody
  headers : List (String × String) := []
deriving DecidableEq, Repr

/-- adapter.TypedBid. -/
structure TypedBid where
  bid : Bid
  bidType : String
deriving DecidableEq, Repr

/-- adapter.BidderResponse. -/
structure BidderResponse where
  bids : List TypedBid
deriving DecidableEq, Repr

/-! ## Configuration and builder -/

/-- The `default-config` block of the PBS YAML configuration. -/
structure DefaultConfig where
  siteID : Int := 0
  pageID : Int := 0
  formatID : Int := 0
  platformID : Int := 0
deriving DecidableEq, Repr

/-- The `adapters.smartadserver` block of the PBS YAML configuration. -/
structure SmartAdServerConfig where
  enabled : Bool := false
  endpoint : String := ""
  platformID : Int := 0
  defaultConfig : DefaultConfig := {}
deriving DecidableEq, Repr

/-- The `adapters` block. -/
structure AdaptersConfig where
  smartAdServer : SmartAdServerConfig := {}
deriving DecidableEq, Repr

/-- PBSConfig: the top-level PBS YAML configuration structure. -/
structure PBSConfig where
  adapters : AdaptersConfig := {}
deriving DecidableEq, Repr

/-- Raw configuration bytes, together with the outcome of `yaml.Unmarshal`
into `PBSConfig`: either structurally undecodable or a decoded record. -/
inductive RawConfig where
  | malformed (s : String)
  | wellFormed (c : PBSConfig)
deriving DecidableEq, Repr

/-- SmartAdServerAdapter: the bidder produced by the builder. -/
structure SmartAdServerAdapter where
  endpoint : String
  platformID : Int
  defaultConfig : DefaultConfig
deriving DecidableEq, Repr

/-- BuildBidder (source lines 37-57): parse the config, fail if parsing
fails, fail if the adapter is not enabled, otherwise close the adapter over
the endpoint, the platform id and the default-config block. -/
def BuildBidder (config : RawConfig) : Except String SmartAdServerAdapter :=
  match config with
  | .malformed _ => .error "error parsing PBS config"
  | .wellFormed pbsConfig =>
    if !pbsConfig.adapters.smartAdServer.enabled then
      .error "SmartAdServer adapter is not enabled in config"
    else
      .ok { endpoint := pbsConfig.adapters.smartAdServer.endpoint
            platformID := pbsConfig.adapters.smartAdServer.platformID
            defaultConfig := pbsConfig.adapters.smartAdServer.defaultConfig }

/-! ## MakeRequests -/

/-- The fixed header map of the outgoing wire request (source lines 150-154). -/
def requestHeaders : List (String × String) :=
  [("Content-Type", "application/json;charset=utf-8"),
   ("Accept", "application/json"),
   ("X-Openrtb-Version", "2.5")]

/-- The impression extension built at source lines 89-101 from the adapter
configuration and `request.Site.Domain`. -/
def mkImpExt (a : SmartAdServerAdapter) (site : Site) : ImpExt :=
  { prebid :=
    { bidder :=
      { smartadserver :=
        { siteId := a.defaultConfig.siteID
          networkId := a.platformID
          pageId := a.defaultConfig.pageID
          formatId := a.defaultConfig.formatID
          target := "testing=prebid"
          domain := site.domain } } } }

/-- Source lines 86-123: copy the first impression, attach the marshalled
extension, default the banner to a single 728x90 format when the impression
has no banner, and force the bid floor and its currency. -/
def enrichImp (a : SmartAdServerAdapter) (site : Site) (imp0 : Imp) : Imp :=
  let withExt : Imp := { imp0 with ext := some (ExtBlob.smart (mkImpExt a site)) }
  let withBanner : Imp :=
    match withExt.banner with
    | none => { withExt with banner := some { format := [{ w := 728, h := 90 }] } }
    | some _ => withExt
  { withBanner with bidFloor := 1 / 100, bidFloorCur := "USD" }

/-- Source lines 136-138: when the (shared) site has an empty page and a
non-empty domain, set the page to "https://" ++ domain.  This is the write
through the aliased site pointer. -/
def sitePageSynth (site : Site) : Site :=
  if site.page = "" ∧ site.domain ≠ "" then
    { site with page := "https://" ++ site.domain }
  else
    site

/-- MakeRequests (source lines 72-168).  Returns `none` when the call faults
(the nil-pointer dereference of `request.Site` at line 98); otherwise
`some ((requests, errors), callerAfter)` where `callerAfter` is the
caller-visible value of `*request` after the call (the shallow copy at line
126 shares the Site object, so the page synthesis at line 137 mutates the
caller's request). -/
def MakeRequests (a : SmartAdServerAdapter) (request : BidRequest) :
    Option ((List HttpRequest × List String) × BidRequest) :=
  match request.imp with
  | [] => some (([], ["no impressions in bid request"]), request)
  | imp0 :: _ =>
    match request.site with
    | none => none
    | some site =>
      let finalImp := enrichImp a site imp0
      let site' := sitePageSynth site
      let enriched : BidRequest :=
        { request with
            imp := [finalImp], test := 1, tmax := 1000, AT := 1, site := some site' }
      let callerAfter : BidRequest := { request with site := some site' }
      some (([{ method := "POST", uri := a.endpoint, body := enriched,
                headers := requestHeaders }], []), callerAfter)

/-! ## MakeBids -/

/-- Source lines 200-218: the status-200 branch of MakeBids.  Decode the
body; on success flatten every bid across every seat into TypedBids, each
tagged "banner". -/
def decodeAndFlatten (body : WireBody) : Option BidderResponse × List String :=
  match body with
  | .malformed _ => (none, ["error unmarshaling bid response"])
  | .valid _ bidResp =>
    (some { bids := bidResp.seatBid.flatMap fun seatBid =>
              seatBid.bid.map fun b => { bid := b, bidType := "banner" } },
     [])

/-- MakeBids (source lines 171-219): classify the response status code, then
decode and flatten on status 200. -/
def MakeBids (a : SmartAdServerAdapter) (request : BidRequest)
    (response : HttpResponse) : Option BidderResponse × List String :=
  if response.statusCode = 204 then
    (none, [])
  else if response.statusCode = 400 then
    (none, ["Bad request: " ++ response.body.raw])
  else if response.statusCode = 404 then
    (none, ["404 Not Found: " ++ response.body.raw])
  else if response.statusCode ≠ 200 then
    (none, ["Unexpected status code: " ++ toString response.statusCode ++
            ". Body: " ++ response.body.raw])
  else
    decodeAndFlatten response.body

/-! ## Shape predicates and concrete fixtures -/

/-- Holds of a MakeRequests outcome exactly when the call returned (did not
fault) with a one-element request list and an empty error list. -/
def isSingleRequestNoError :
    Option ((List HttpRequest × List String) × BidRequest) → Bool
  | some ((reqList, errs), _) => reqList.length == 1 && errs.isEmpty
  | none => false

/-- A concrete adapter configuration used by the closed evaluation theorems. -/
def adapter0 : SmartAdServerAdapter :=
  { endpoint := "https://exchange.example/auction"
    platformID := 1234
    defaultConfig := { siteID := 421, pageID := 1897, formatID := 123, platformID := 1234 } }

/-- An empty bid request, for witnesses of MakeBids theorems. -/
def req0 : BidRequest := {}

/-- A bid request with one impression and no Site (the Go Site pointer is
nil). -/
def reqNoSite1 : BidRequest := { id := "r1", imp := [{ id := "1" }] }

/-- A second bid request with one impression and no Site. -/
def reqNoSite4 : BidRequest := { id := "r4", imp := [{ id := "4" }] }

/-- A third bid request with one impression and no Site. -/
def reqNoSite7 : BidRequest := { id := "r7", imp := [{ id := "7" }] }

/-- A bid request with one impression and a Site whose page is empty and
whose domain is set: the input on which the page-synthesis write at source
line 137 goes through the aliased Site pointer. -/
def reqAliased : BidRequest :=
  { id := "r3", imp := [{ id := "1" }], site := some { domain := "example.com" } }

/-- The caller-visible value of `reqAliased` after MakeRequests: its Site
page has been set to "https://example.com". -/
def reqAliasedAfter : BidRequest :=
  { reqAliased with site := some { domain := "example.com", page := "https://example.com" } }

/-- A bid request with one impression and a Site, for the idempotence
witness. -/
def reqIdem : BidRequest :=
  { id := "r8", imp := [{ id := "i8" }], site := some { domain := "example.com" } }

/-- The caller-visible value of `reqIdem` after MakeRequests. -/
def reqIdemAfter : BidRequest :=
  { reqIdem with site := some { domain := "example.com", page := "https://example.com" } }

/-- The enriched request serialized into the wire body for `reqIdem`. -/
def enrichedIdem : BidRequest :=
  { reqIdem with
      imp := [enrichImp adapter0 { domain := "example.com" } { id := "i8" }]
      test := 1
      tmax := 1000
      AT := 1
      site := some { domain := "example.com", page := "https://example.com" } }

/-- The Go return values of MakeRequests on `reqIdem`. -/
def outIdem : List HttpRequest × List String :=
  ([{ method := "POST", uri := adapter0.endpoint, body := enrichedIdem,
      headers := requestHeaders }], [])

/-- A bid request with one impression and a Site, for the no-fault witness. -/
def req9 : BidRequest :=
  { id := "r9", imp := [{ id := "i9" }], site := some { domain := "d.example" } }

/-- A 204 wire response. -/
def resp204 : HttpResponse := { statusCode := 204, body := .malformed "" }

/-- A 400 wire response with body "bad". -/
def resp400 : HttpResponse := { statusCode := 400, body := .malformed "bad" }

/-- A 404 wire response with body "nf". -/
def resp404 : HttpResponse := { statusCode := 404, body := .malformed "nf" }

/-- A 500 wire response with body "oops". -/
def resp500 : HttpResponse := { statusCode := 500, body := .malformed "oops" }

/-- A 200 wire response whose body decodes to a BidResponse with no seats. -/
def resp200 : HttpResponse :=
  { statusCode := 200, body := .valid "ok" { seatBid := [] } }

/-! ## Helper lemmas -/

/-- Prepending the scheme to any domain gives a non-empty string. -/
theorem https_prepend_ne_empty (d : String) : "https://" ++ d ≠ "" := by
  intro h
  have hlen : ("https://" ++ d).length = (0 : Nat) := by rw [h]; rfl
  rw [String.length_append] at hlen
  have h8 : ("https://" : String).length = 8 := rfl
  omega

/-- Page synthesis never changes the site domain. -/
theorem sitePageSynth_domain (s : Site) : (sitePageSynth s).domain = s.domain := by
  unfold sitePageSynth
  split <;> rfl

/-- Page synthesis is idempotent: a synthesized page is non-empty, so a
second pass leaves the site unchanged. -/
theorem sitePageSynth_idem (s : Site) :
    sitePageSynth (sitePageSynth s) = sitePageSynth s := by
  by_cases hc : s.page = "" ∧ s.domain ≠ ""
  · have h1 : sitePageSynth s = { s with page := "https://" ++ s.domain } := by
      unfold sitePageSynth
      rw [if_pos hc]
    rw [h1]
    unfold sitePageSynth
    rw [if_neg]
    intro h2
    exact https_prepend_ne_empty s.domain h2.1
  · have h1 : sitePageSynth s = s := by
      unfold sitePageSynth
      rw [if_neg hc]
    rw [h1, h1]

/-- The impression enrichment reads the site only through its domain, which
page synthesis preserves. -/
theorem enrichImp_sitePageSynth (a : SmartAdServerAdapter) (s : Site) (i : Imp) :
    enrichImp a (sitePageSynth s) i = enrichImp a s i := by
  unfold enrichImp mkImpExt
  rw [sitePageSynth_domain]

/-! ## Claim theorems -/

/-- Claim C1 (code bug evaluation): on a BidRequest with one impression and
a nil Site, MakeRequests does not succeed with a wire request; it faults on
the unguarded read of request.Site.Domain at source line 98, contradicting
the claim that every BidRequest with at least one impression yields exactly
one WireRequest. -/
theorem makeRequests_faults_on_nil_site :
    MakeRequests adapter0 reqNoSite1 = none := rfl

/-- Claim C2: MakeBids classifies the response status code as the decision
table states: 204 gives an empty result and no error; 400 gives a
bad-request error carrying the raw body; 404 gives a not-found error
carrying the raw body; any other status different from 200 gives an
unexpected-status error carrying the code and the body; status 200 alone
proceeds to decoding the body. -/
theorem makeBids_status_classification (a : SmartAdServerAdapter)
    (request : BidRequest) (response : HttpResponse) :
    (response.statusCode = 204 → MakeBids a request response = (none, [])) ∧
    (response.statusCode = 400 →
      MakeBids a request response =
        (none, ["Bad request: " ++ response.body.raw])) ∧
    (response.statusCode = 404 →
      MakeBids a request response =
        (none, ["404 Not Found: " ++ response.body.raw])) ∧
    (response.statusCode ≠ 204 → response.statusCode ≠ 400 →
      response.statusCode ≠ 404 → response.statusCode ≠ 200 →
      MakeBids a request response =
        (none, ["Unexpected status code: " ++ toString response.statusCode ++
                ". Body: " ++ response.body.raw])) ∧
    (response.statusCode = 200 →
      MakeBids a request response = decodeAndFlatten response.body) := by
  refine ⟨?_, ?_, ?_, ?_, ?_⟩
  · intro h
    simp [MakeBids, h]
  · intro h
    simp [MakeBids, h]
  · intro h
    simp [MakeBids, h]
  · intro h204 h400 h404 h200
    simp [MakeBids, h204, h400, h404, h200]
  · intro h
    simp [MakeBids, h]

/-- Witness for C2: the classification at concrete responses with statuses
204, 400, 404, 500 and 200. -/
theorem makeBids_status_classification_witness :
    MakeBids adapter0 req0 resp204 = (none, []) ∧
    MakeBids adapter0 req0 resp400 = (none, ["Bad request: bad"]) ∧
    MakeBids adapter0 req0 resp404 = (none, ["404 Not Found: nf"]) ∧
    MakeBids adapter0 req0 resp500 =
      (none, ["Unexpected status code: 500. Body: oops"]) ∧
    MakeBids adapter0 req0 resp200 = decodeAndFlatten resp200.body :=
  ⟨(makeBids_status_classification adapter0 req0 resp204).1 rfl,
   (makeBids_status_classification adapter0 req0 resp400).2.1 rfl,
   (makeBids_status_classification adapter0 req0 resp404).2.2.1 rfl,
   (makeBids_status_classification adapter0 req0 resp500).2.2.2.1
     (by decide) (by decide) (by decide) (by decide),
   (makeBids_status_classification adapter0 req0 resp200).2.2.2.2 rfl⟩

/-- Claim C3 (code bug evaluation): MakeRequests mutates the caller's
original BidRequest.  On a request whose Site has an empty page and domain
"example.com", the caller-visible request after the call has its Site page
set to "https://example.com": the shallow copy at source line 126 shares the
Site object and line 137 writes through it. -/
theorem makeRequests_mutates_caller :
    (MakeRequests adapter0 reqAliased).map (fun out => out.2) =
      some reqAliasedAfter ∧
    reqAliasedAfter ≠ reqAliased := by
  refine ⟨rfl, ?_⟩
  decide

/-- Claim C4 (code bug evaluation): the claimed synthesis of an empty Site
when Site is absent never happens; on a BidRequest with one impression and
no Site, MakeRequests faults before reaching the synthesis branch at source
lines 133-135. -/
theorem makeRequests_no_empty_site_synthesis :
    MakeRequests adapter0 reqNoSite4 = none := rfl

/-- Claim C5: on a 200 response whose body decodes as a BidResponse,
MakeBids returns, with no error, one TypedBid per bid across every seat, so
the list length is the total number of bids over all seats, and every bid is
tagged "banner"; with an empty seat list the bid list is empty. -/
theorem makeBids_ok_flattens (a : SmartAdServerAdapter) (request : BidRequest)
    (raw : String) (bidResp : BidResponse) (hs : List (String × String)) :
    ∃ bids : List TypedBid,
      MakeBids a request
          { statusCode := 200, body := .valid raw bidResp, headers := hs } =
        (some { bids := bids }, []) ∧
      bids.length = (bidResp.seatBid.map fun sb => sb.bid.length).sum ∧
      bids.all (fun tb => tb.bidType == "banner") = true := by
  refine ⟨bidResp.seatBid.flatMap fun sb =>
            sb.bid.map fun b => { bid := b, bidType := "banner" }, ?_, ?_, ?_⟩
  · simp [MakeBids, decodeAndFlatten]
  · rw [List.length_flatMap]
    apply congrArg
    apply List.map_congr_left
    intro sb _
    simp [List.length_map]
  · simp only [List.all_eq_true]
    intro tb htb
    simp only [List.mem_flatMap, List.mem_map] at htb
    obtain ⟨sb, _, b, _, hb⟩ := htb
    rw [← hb]
    rfl

/-- Claim C6: a structurally undecodable configuration makes BuildBidder
fail with a parse error, and a decoded configuration whose enabled flag is
false makes it fail with the disabled error; in both cases no adapter is
produced. -/
theorem buildBidder_rejects (c : PBSConfig) (s : String)
    (hdis : c.adapters.smartAdServer.enabled = false) :
    BuildBidder (.wellFormed c) =
      .error "SmartAdServer adapter is not enabled in config" ∧
    BuildBidder (.malformed s) = .error "error parsing PBS config" := by
  constructor
  · simp [BuildBidder, hdis]
  · rfl

/-- Witness for C6: the default configuration record has enabled = false and
is rejected, as is the malformed byte string "x". -/
theorem buildBidder_rejects_witness :
    BuildBidder (.wellFormed {}) =
      .error "SmartAdServer adapter is not enabled in config" ∧
    BuildBidder (.malformed "x") = .error "error parsing PBS config" :=
  buildBidder_rejects {} "x" rfl

/-- Claim C7 (code bug evaluation): on a BidRequest with one impression and
a nil Site, MakeRequests returns neither of the two claimed shapes: the call
faults on the nil Site dereference and produces no return value at all. -/
theorem makeRequests_returns_neither_shape :
    MakeRequests adapter0 reqNoSite7 = none := rfl

/-- Claim C8: MakeRequests is deterministic and idempotent.  Its embedding
is a pure function of the adapter configuration and the request, so two
calls on equal inputs give equal wire bodies; moreover, even accounting for
the mutation of the caller's request (the Site page write through the
aliased pointer), a second call on the caller-visible request after the
first call returns the very same wire request and leaves the request
unchanged. -/
theorem makeRequests_idempotent (a : SmartAdServerAdapter) (r : BidRequest)
    (out : List HttpRequest × List String) (r' : BidRequest)
    (h : MakeRequests a r = some (out, r')) :
    MakeRequests a r = MakeRequests a r ∧
    MakeRequests a r' = some (out, r') := by
  refine ⟨rfl, ?_⟩
  unfold MakeRequests at h ⊢
  cases hImp : r.imp with
  | nil =>
    rw [hImp] at h
    simp only [Option.some.injEq, Prod.mk.injEq] at h
    obtain ⟨hout, hr'⟩ := h
    subst hr'
    rw [hImp]
    simp only [Option.some.injEq, Prod.mk.injEq]
    exact ⟨hout, trivial⟩
  | cons imp0 rest =>
    rw [hImp] at h
    cases hSite : r.site with
    | none =>
      rw [hSite] at h
      exact absurd h (by simp)
    | some site =>
      rw [hSite] at h
      simp only [Option.some.injEq, Prod.mk.injEq] at h
      obtain ⟨hout, hr'⟩ := h
      subst hr'
      dsimp only
      rw [← hout, sitePageSynth_idem, enrichImp_sitePageSynth]

/-- Witness for C8: on a concrete request with an empty page and domain
"example.com", the first call returns `outIdem` and the mutated caller
request `reqIdemAfter`, and a second call on `reqIdemAfter` returns the same
wire request and the same final request. -/
theorem makeRequests_idempotent_witness :
    MakeRequests adapter0 reqIdem = some (outIdem, reqIdemAfter) ∧
    MakeRequests adapter0 reqIdemAfter = some (outIdem, reqIdemAfter) :=
  ⟨rfl, (makeRequests_idempotent adapter0 reqIdem outIdem reqIdemAfter rfl).2⟩

/-- Claim C9: on every BidRequest with at least one impression and a non-nil
Site, MakeRequests executes without faulting and without taking any error
branch: it returns a single wire request and an empty error list.  The
extension marshal cannot fail (the extension is a fixed nesting of integer
and string fields, modelled total), so the nil-Site dereference is the only
partial access. -/
theorem makeRequests_no_fault (a : SmartAdServerAdapter) (r : BidRequest)
    (imp0 : Imp) (rest : List Imp) (site : Site)
    (hImp : r.imp = imp0 :: rest) (hSite : r.site = some site) :
    isSingleRequestNoError (MakeRequests a r) = true := by
  unfold MakeRequests
  rw [hImp, hSite]
  rfl

/-- Witness for C9: the concrete request `req9` has one impression and a
Site, and MakeRequests returns one wire request and no errors on it. -/
theorem makeRequests_no_fault_witness :
    isSingleRequestNoError (MakeRequests adapter0 req9) = true :=
  makeRequests_no_fault adapter0 req9 { id := "i9" } [] { domain := "d.example" }
    rfl rfl

/-- Claim C10: MakeBids never inspects its BidRequest argument, so its
result depends only on the adapter configuration and the wire response: two
calls with the same response and different requests return equal bid lists
and equal error lists. -/
theorem makeBids_ignores_request (a : SmartAdServerAdapter)
    (r1 r2 : BidRequest) (response : HttpResponse) :
    MakeBids a r1 response = MakeBids a r2 response := rfl

/-- Supporting fact: whenever MakeRequests returns at all, it returns either
a one-element request list with an empty error list or an empty request list
with a non-empty error list, never both non-empty. -/
theorem makeRequests_return_shape (a : SmartAdServerAdapter) (r : BidRequest)
    (reqs : List HttpRequest) (errs : List String) (after : BidRequest)
    (h : MakeRequests a r = some ((reqs, errs), after)) :
    (reqs.length = 1 ∧ errs = []) ∨ (reqs = [] ∧ errs ≠ []) := by
  unfold MakeRequests at h
  cases hImp : r.imp with
  | nil =>
    rw [hImp] at h
    simp only [Option.some.injEq, Prod.mk.injEq] at h
    obtain ⟨⟨h1, h2⟩, -⟩ := h
    right
    refine ⟨h1.symm, ?_⟩
    rw [← h2]
    simp
  | cons imp0 rest =>
    rw [hImp] at h
    cases hSite : r.site with
    | none =>
      rw [hSite] at h
      exact absurd h (by simp)
    | some site =>
      rw [hSite] at h
      simp only [Option.some.injEq, Prod.mk.injEq] at h
      obtain ⟨⟨h1, h2⟩, -⟩ := h
      left
      exact ⟨by rw [← h1]; rfl, h2.symm⟩
